import Mathlib

/-!
Verification of the ISS overhead notifier (`src/ISS_overhead_project/main1.py`)
against its natural-language specification.

The script is shallowly embedded: Python floats are modelled as rationals,
UTC hours as naturals, missing values (`None`) as `Option`, uncaught Python
exceptions as `Except.error`, and the per-iteration body of the monitoring
loop as a pure step function over the one boolean flag
`email_sent_for_current_pass`, returning the new flag, the number of email
send invocations, and the status messages printed.
-/

namespace ISS

/-- Observer latitude (`MY_LAT`, main1.py line 10). -/
def MY_LAT : ℚ := 26.5458

/-- Observer longitude (`MY_LONG`, main1.py line 11). -/
def MY_LONG : ℚ := 77.0197

/-- A latitude/longitude field of the ISS position payload, as it matters to
`float(data["iss_position"]["latitude"])`: the key can be missing (lookup
raises `KeyError`), hold a string `float` rejects (raises `ValueError`), or
hold a numeric string, abstracted to its value. -/
inductive Field where
  | missing
  | nonNumeric (raw : String)
  | numeric (val : ℚ)
deriving DecidableEq, Repr

/-- The `iss_position` object of the response JSON. -/
structure IssPosition where
  latitude : Field
  longitude : Field
deriving DecidableEq, Repr

/-- Outcome of the HTTP GET to the ISS API: a transport-level failure
(`requests.exceptions.RequestException`, the only class the `except` clause
of `get_iss_location` catches), or a parsed JSON body whose `iss_position`
key may be absent. -/
inductive FetchResult where
  | transportError (msg : String)
  | payload (issPosition : Option IssPosition)
deriving DecidableEq, Repr

/-- A Python exception escaping uncaught. -/
inductive PyExn where
  | keyError
  | valueError
deriving DecidableEq, Repr

/-- `get_iss_location` (main1.py lines 34-45): a transport failure is caught
and reported, returning `(None, None)`; otherwise the latitude then the
longitude are looked up and parsed, and any `KeyError`/`ValueError` raised
there is NOT caught (the `except` clause only handles
`requests.exceptions.RequestException`). -/
def get_iss_location : FetchResult → Except PyExn (Option (ℚ × ℚ))
  | .transportError _ => .ok none
  | .payload none => .error .keyError
  | .payload (some p) =>
    match p.latitude with
    | .missing => .error .keyError
    | .nonNumeric _ => .error .valueError
    | .numeric la =>
      match p.longitude with
      | .missing => .error .keyError
      | .nonNumeric _ => .error .valueError
      | .numeric lo => .ok (some (la, lo))

/-- `is_iss_overhead` (main1.py lines 67-71). -/
def is_iss_overhead (my_lat my_long iss_lat iss_long : ℚ) : Bool :=
  decide (|my_lat - iss_lat| < 5) && decide (|my_long - iss_long| < 5)

/-- `is_night` (main1.py lines 74-82): `None` sunrise or sunset forces
night; otherwise, if `sunset_utc < sunrise_utc` night is
`hour ≥ sunset or hour < sunrise`, else `hour ≥ sunset and hour < sunrise`. -/
def is_night (sunrise_utc sunset_utc : Option ℕ) (current_utc_hour : ℕ) : Bool :=
  match sunrise_utc, sunset_utc with
  | some sunrise, some sunset =>
    if sunset < sunrise then
      decide (current_utc_hour ≥ sunset) || decide (current_utc_hour < sunrise)
    else
      decide (current_utc_hour ≥ sunset) && decide (current_utc_hour < sunrise)
  | _, _ => true

/-- Outcome of the SMTP session opened by `send_iss_notification_email`:
success, or some exception raised while connecting, logging in or sending. -/
inductive SmtpOutcome where
  | ok
  | error (msg : String)
deriving DecidableEq, Repr

/-- Observable events of one execution of the notification branch
(main1.py lines 147-150), in program order. -/
inductive NotifyEvent where
  | sendAttempt (failed : Bool)
  | errorReported
  | flagSet (b : Bool)
deriving DecidableEq, Repr

/-- `send_iss_notification_email` (main1.py lines 85-111): attempts the
send; every exception is caught by the `except Exception` clause, which
reports the error, so the function always returns normally. The returned
list records what happened, in order. -/
def send_iss_notification_email (outcome : SmtpOutcome) : List NotifyEvent :=
  match outcome with
  | .ok => [.sendAttempt false]
  | .error _ => [.sendAttempt true, .errorReported]

/-- The notification branch of the loop body (main1.py lines 147-150):
`if send_emails and not email_sent_for_current_pass:` call the notifier,
then set the flag to true. Returns the new flag value and the events of
this branch in program order. -/
def notify_branch (send_emails email_sent_for_current_pass : Bool)
    (outcome : SmtpOutcome) : Bool × List NotifyEvent :=
  if send_emails && !email_sent_for_current_pass then
    (true, send_iss_notification_email outcome ++ [.flagSet true])
  else
    (email_sent_for_current_pass, [])

/-- Truthiness of an optional environment variable, as Python's `not`
reads it: `None` and the empty string are falsy. -/
def truthy : Option String → Bool
  | none => false
  | some s => !s.isEmpty

/-- The `send_emails` configuration flag (main1.py lines 120-127): false
when any of `SENDER_EMAIL`, `RECEIVER_EMAIL`, `EMAIL_PASSWORD` is falsy. -/
def send_emails_flag (sender_email receiver_email email_password : Option String) : Bool :=
  truthy sender_email && truthy receiver_email && truthy email_password

/-- A status message printed by the loop body (main1.py lines 136-158). -/
inductive LogEvent where
  | currentLocation (lat long : ℚ)
  | withinRange
  | darkOutside
  | lookUp
  | daytime
  | notOverhead
  | waiting
deriving DecidableEq, Repr

/-- The external data one loop iteration observes: the ISS position as the
loop body receives it from `get_iss_location` (`none` models the
`(None, None)` unavailable result), the sunrise/sunset window from
`get_sunrise_sunset_times`, and the current UTC hour. -/
structure Tick where
  pos : Option (ℚ × ℚ)
  sunrise_utc : Option ℕ
  sunset_utc : Option ℕ
  current_utc_hour : ℕ
deriving DecidableEq, Repr

/-- Result of one loop iteration: the new `email_sent_for_current_pass`
flag, how many times `send_iss_notification_email` was invoked, and the
status messages printed. -/
structure StepResult where
  flag : Bool
  sends : ℕ
  logs : List LogEvent
deriving DecidableEq, Repr

/-- One iteration of the `while True` loop body (main1.py lines 132-159),
given the flag before the iteration and the tick's observed data. -/
def loopStep (send_emails flag : Bool) (t : Tick) : StepResult :=
  match t.pos with
  | none => ⟨flag, 0, [.waiting]⟩
  | some (iss_latitude, iss_longitude) =>
    if is_iss_overhead MY_LAT MY_LONG iss_latitude iss_longitude then
      if is_night t.sunrise_utc t.sunset_utc t.current_utc_hour then
        if send_emails && !flag then
          ⟨true, 1, [.currentLocation iss_latitude iss_longitude, .withinRange,
                     .darkOutside, .lookUp, .waiting]⟩
        else
          ⟨flag, 0, [.currentLocation iss_latitude iss_longitude, .withinRange,
                     .darkOutside, .lookUp, .waiting]⟩
      else
        ⟨false, 0, [.currentLocation iss_latitude iss_longitude, .withinRange,
                    .daytime, .waiting]⟩
    else
      ⟨false, 0, [.currentLocation iss_latitude iss_longitude, .notOverhead, .waiting]⟩

/-- Running the loop body over a finite sequence of ticks, threading the
flag, accumulating send invocations and printed messages. -/
def runLoop (send_emails flag : Bool) : List Tick → StepResult
  | [] => ⟨flag, 0, []⟩
  | t :: ts =>
    let r := loopStep send_emails flag t
    let rest := runLoop send_emails r.flag ts
    ⟨rest.flag, r.sends + rest.sends, r.logs ++ rest.logs⟩

/-- A tick on which the position is available and both the overhead and
the night condition hold (the conditions of the claims about the flag). -/
def overhead_and_night (t : Tick) : Bool :=
  match t.pos with
  | none => false
  | some (iss_latitude, iss_longitude) =>
    is_iss_overhead MY_LAT MY_LONG iss_latitude iss_longitude &&
      is_night t.sunrise_utc t.sunset_utc t.current_utc_hour

/-- A tick with the ISS exactly over the observer during a wrapped
(night-classified) window. -/
def tick_night : Tick :=
  ⟨some (MY_LAT, MY_LONG), some 18, some 6, 20⟩

/-- A tick with the ISS exactly over the observer during a non-wrapped
(day-classified) window. -/
def tick_day : Tick :=
  ⟨some (MY_LAT, MY_LONG), some 6, some 18, 12⟩

/-- A tick on which the position fetch failed. -/
def tick_unavailable : Tick :=
  ⟨none, some 6, some 18, 12⟩

/-- Whether `float(...)` succeeds on a payload field. -/
def field_parses : Field → Bool
  | .numeric _ => true
  | _ => false

/-- Whether a notification event is the send attempt. -/
def is_send_attempt : NotifyEvent → Bool
  | .sendAttempt _ => true
  | _ => false

end ISS

namespace ISS

/-- Claim C2: for every UTC hour h in 0-23 and every available window, the
night predicate returns true exactly when (sunset < sunrise and (h ≥ sunset
or h < sunrise)) or (sunset ≥ sunrise and h ≥ sunset and h < sunrise). -/
theorem is_night_formula (sunrise sunset h : ℕ) (_hh : h < 24) :
    is_night (some sunrise) (some sunset) h = true ↔
      (if sunset < sunrise then sunset ≤ h ∨ h < sunrise
       else sunset ≤ h ∧ h < sunrise) := by
  have hdef : is_night (some sunrise) (some sunset) h =
      if sunset < sunrise then
        decide (h ≥ sunset) || decide (h < sunrise)
      else
        decide (h ≥ sunset) && decide (h < sunrise) := rfl
  rw [hdef]
  split <;> simp

/-- Witness for C2 at sunrise=18, sunset=6, hour 20. -/
theorem is_night_formula_witness :
    20 < 24 ∧ (is_night (some 18) (some 6) 20 = true ↔
      (if 6 < 18 then 6 ≤ 20 ∨ 20 < 18 else 6 ≤ 20 ∧ 20 < 18)) :=
  ⟨by decide, is_night_formula 18 6 20 (by decide)⟩

/-- Claim C1, counterexample: the spec's test vectors fail on the code —
hour 3 and hour 20 with window (sunrise=6, sunset=18) are classified day,
and hour 10 with the wrapped window (sunrise=18, sunset=6) is classified
night. -/
theorem is_night_vectors_cex :
    ¬ (is_night (some 6) (some 18) 3 = true ∧
       is_night (some 6) (some 18) 20 = true ∧
       is_night (some 18) (some 6) 10 = false) := by
  decide

/-- Claim C1, amended: with the non-wrapped window sunrise=6, sunset=18,
hours 12, 3 and 20 all yield day; with the wrapped window sunrise=18,
sunset=6, hours 20 and 10 both yield night. -/
theorem is_night_vectors :
    is_night (some 6) (some 18) 12 = false ∧
    is_night (some 6) (some 18) 3 = false ∧
    is_night (some 6) (some 18) 20 = false ∧
    is_night (some 18) (some 6) 20 = true ∧
    is_night (some 18) (some 6) 10 = true := by
  decide

/-- Claim C5: whenever the daylight fetch fails (sunrise or sunset is
`None`), the night predicate returns true, for every current UTC hour. -/
theorem is_night_fail_open (sunrise sunset : Option ℕ) (h : ℕ)
    (hfail : sunrise = none ∨ sunset = none) :
    is_night sunrise sunset h = true := by
  rcases hfail with hf | hf
  · subst hf; cases sunset <;> rfl
  · subst hf; cases sunrise <;> rfl

/-- Witness for C5 at sunrise=None, sunset=18, hour 3. -/
theorem is_night_fail_open_witness :
    ((none : Option ℕ) = none ∨ (some 18 : Option ℕ) = none) ∧
      is_night none (some 18) 3 = true :=
  ⟨Or.inl rfl, is_night_fail_open none (some 18) 3 (Or.inl rfl)⟩

/-- Claim C9: for every available window with sunrise ≤ sunset and every
hour, the night predicate returns false: no hour is ever classified night
for a non-wrapped window. -/
theorem is_night_nonwrapped_never (sunrise sunset h : ℕ)
    (hle : sunrise ≤ sunset) :
    is_night (some sunrise) (some sunset) h = false := by
  have hdef : is_night (some sunrise) (some sunset) h =
      if sunset < sunrise then
        decide (h ≥ sunset) || decide (h < sunrise)
      else
        decide (h ≥ sunset) && decide (h < sunrise) := rfl
  rw [hdef]
  rw [if_neg (by omega)]
  simp only [Bool.and_eq_false_iff, decide_eq_false_iff_not, not_le, not_lt, ge_iff_le]
  omega

/-- Witness for C9 at sunrise=6, sunset=18, hour 3. -/
theorem is_night_nonwrapped_never_witness :
    6 ≤ 18 ∧ is_night (some 6) (some 18) 3 = false :=
  ⟨by decide, is_night_nonwrapped_never 6 18 3 (by decide)⟩

/-- Claim C3: the overhead predicate returns true exactly when both
absolute coordinate differences are strictly below 5 degrees, and returns
false whenever either difference equals exactly 5. -/
theorem is_iss_overhead_iff (my_lat my_long iss_lat iss_long : ℚ) :
    (is_iss_overhead my_lat my_long iss_lat iss_long = true ↔
      (|my_lat - iss_lat| < 5 ∧ |my_long - iss_long| < 5)) ∧
    ((|my_lat - iss_lat| = 5 ∨ |my_long - iss_long| = 5) →
      is_iss_overhead my_lat my_long iss_lat iss_long = false) := by
  constructor
  · simp [is_iss_overhead]
  · intro hb
    simp only [is_iss_overhead, Bool.and_eq_false_iff, decide_eq_false_iff_not, not_lt]
    rcases hb with hb | hb
    · exact Or.inl (le_of_eq hb.symm)
    · exact Or.inr (le_of_eq hb.symm)

/-- Witness for C3: at a latitude difference of exactly 5 degrees the
predicate is false. -/
theorem is_iss_overhead_iff_witness :
    is_iss_overhead 0 0 5 0 = false :=
  (is_iss_overhead_iff 0 0 5 0).2 (Or.inl (by norm_num))

/-- The observer's own coordinates are within the bounding box. -/
lemma overhead_self : is_iss_overhead MY_LAT MY_LONG MY_LAT MY_LONG = true := by
  simp only [is_iss_overhead, sub_self, abs_zero, Bool.and_eq_true, decide_eq_true_eq]
  norm_num

lemma is_night_wrapped_20 : is_night (some 18) (some 6) 20 = true := rfl

lemma is_night_nonwrapped_12 : is_night (some 6) (some 18) 12 = false := rfl

lemma overhead_and_night_tick_night : overhead_and_night tick_night = true := by
  show (is_iss_overhead MY_LAT MY_LONG MY_LAT MY_LONG &&
    is_night (some 18) (some 6) 20) = true
  rw [overhead_self, is_night_wrapped_20]
  rfl

lemma overhead_and_night_tick_day : overhead_and_night tick_day = false := by
  show (is_iss_overhead MY_LAT MY_LONG MY_LAT MY_LONG &&
    is_night (some 6) (some 18) 12) = false
  rw [overhead_self, is_night_nonwrapped_12]
  rfl

lemma loopStep_flag_true_of_on (flag : Bool) (t : Tick)
    (h : overhead_and_night t = true) : (loopStep true flag t).flag = true := by
  rcases t with ⟨pos, sr, ss, hr⟩
  cases pos with
  | none => simp [overhead_and_night] at h
  | some p =>
    rcases p with ⟨la, lo⟩
    simp only [overhead_and_night, Bool.and_eq_true] at h
    cases flag <;> simp [loopStep, h.1, h.2]

lemma loopStep_sends_of_on (flag : Bool) (t : Tick)
    (h : overhead_and_night t = true) :
    (loopStep true flag t).sends = if flag then 0 else 1 := by
  rcases t with ⟨pos, sr, ss, hr⟩
  cases pos with
  | none => simp [overhead_and_night] at h
  | some p =>
    rcases p with ⟨la, lo⟩
    simp only [overhead_and_night, Bool.and_eq_true] at h
    cases flag <;> simp [loopStep, h.1, h.2]

lemma runLoop_sends_cons (send_emails flag : Bool) (t : Tick) (ts : List Tick) :
    (runLoop send_emails flag (t :: ts)).sends =
      (loopStep send_emails flag t).sends +
        (runLoop send_emails (loopStep send_emails flag t).flag ts).sends := rfl

lemma runLoop_sends_zero_all_on (ts : List Tick)
    (h : ∀ t ∈ ts, overhead_and_night t = true) :
    (runLoop true true ts).sends = 0 := by
  induction ts with
  | nil => rfl
  | cons t ts ih =>
    rw [runLoop_sends_cons,
      loopStep_flag_true_of_on true t (h t (List.mem_cons_self t ts)),
      loopStep_sends_of_on true t (h t (List.mem_cons_self t ts)),
      ih (fun x hx => h x (List.mem_cons_of_mem t hx))]
    simp

lemma loopStep_flag_false_of_not_on (send_emails flag : Bool) (t : Tick)
    (hp : t.pos.isSome = true) (h : overhead_and_night t = false) :
    (loopStep send_emails flag t).flag = false := by
  rcases t with ⟨pos, sr, ss, hr⟩
  cases pos with
  | none => simp at hp
  | some p =>
    rcases p with ⟨la, lo⟩
    simp only [overhead_and_night] at h
    cases hov : is_iss_overhead MY_LAT MY_LONG la lo with
    | false => simp [loopStep, hov]
    | true =>
      rw [hov, Bool.true_and] at h
      simp [loopStep, hov, h]

lemma loopStep_tick_night_false :
    loopStep true false tick_night =
      ⟨true, 1, [LogEvent.currentLocation MY_LAT MY_LONG, .withinRange,
                 .darkOutside, .lookUp, .waiting]⟩ := by
  simp [loopStep, tick_night, overhead_self, is_night_wrapped_20]

lemma loopStep_tick_night_true :
    loopStep true true tick_night =
      ⟨true, 0, [LogEvent.currentLocation MY_LAT MY_LONG, .withinRange,
                 .darkOutside, .lookUp, .waiting]⟩ := by
  simp [loopStep, tick_night, overhead_self, is_night_wrapped_20]

lemma loopStep_tick_day_true :
    loopStep true true tick_day =
      ⟨false, 0, [LogEvent.currentLocation MY_LAT MY_LONG, .withinRange,
                  .daytime, .waiting]⟩ := by
  simp [loopStep, tick_day, overhead_self, is_night_nonwrapped_12]

/-- Claim C4: starting from flag false with credentials present, the
condition sequence [overhead+night, overhead+night, overhead+day,
overhead+night] produces exactly 2 send invocations; at most one send
occurs per continuous overhead-and-night interval (any all-overhead-night
tick sequence yields at most one send from any starting flag); and the
flag is reset to false on any position-available tick where overhead or
night is false. -/
theorem notify_once_per_pass :
    (runLoop true false [tick_night, tick_night, tick_day, tick_night]).sends = 2 ∧
    (∀ (flag : Bool) (ts : List Tick), (∀ t ∈ ts, overhead_and_night t = true) →
      (runLoop true flag ts).sends ≤ 1) ∧
    (∀ (send_emails flag : Bool) (t : Tick), t.pos.isSome = true →
      overhead_and_night t = false → (loopStep send_emails flag t).flag = false) := by
  refine ⟨?_, ?_, loopStep_flag_false_of_not_on⟩
  · rw [runLoop_sends_cons, loopStep_tick_night_false]
    rw [runLoop_sends_cons, loopStep_tick_night_true]
    rw [runLoop_sends_cons, loopStep_tick_day_true]
    rw [runLoop_sends_cons, loopStep_tick_night_false]
    rfl
  · intro flag ts h
    cases ts with
    | nil => simp [runLoop]
    | cons t ts =>
      rw [runLoop_sends_cons,
        loopStep_flag_true_of_on flag t (h t (List.mem_cons_self t ts)),
        loopStep_sends_of_on flag t (h t (List.mem_cons_self t ts)),
        runLoop_sends_zero_all_on ts (fun x hx => h x (List.mem_cons_of_mem t hx))]
      cases flag <;> simp

/-- Witness for C4: a position-available daytime tick resets the flag. -/
theorem notify_once_per_pass_witness :
    (loopStep true true tick_day).flag = false :=
  notify_once_per_pass.2.2 true true tick_day rfl overhead_and_night_tick_day

lemma loopStep_logs_congr (se₁ f₁ se₂ f₂ : Bool) (t : Tick) :
    (loopStep se₁ f₁ t).logs = (loopStep se₂ f₂ t).logs := by
  rcases t with ⟨pos, sr, ss, hr⟩
  cases pos with
  | none => rfl
  | some p =>
    rcases p with ⟨la, lo⟩
    cases hov : is_iss_overhead MY_LAT MY_LONG la lo <;>
      cases hn : is_night sr ss hr <;>
        simp only [loopStep, hov, hn] <;>
          cases se₁ && !f₁ <;> cases se₂ && !f₂ <;> rfl

lemma runLoop_logs_cons (send_emails flag : Bool) (t : Tick) (ts : List Tick) :
    (runLoop send_emails flag (t :: ts)).logs =
      (loopStep send_emails flag t).logs ++
        (runLoop send_emails (loopStep send_emails flag t).flag ts).logs := rfl

lemma runLoop_logs_congr (ts : List Tick) :
    ∀ se₁ f₁ se₂ f₂, (runLoop se₁ f₁ ts).logs = (runLoop se₂ f₂ ts).logs := by
  induction ts with
  | nil => intro se₁ f₁ se₂ f₂; rfl
  | cons t ts ih =>
    intro se₁ f₁ se₂ f₂
    rw [runLoop_logs_cons, runLoop_logs_cons, loopStep_logs_congr se₁ f₁ se₂ f₂ t,
      ih se₁ (loopStep se₁ f₁ t).flag se₂ (loopStep se₂ f₂ t).flag]

lemma loopStep_sends_no_emails (flag : Bool) (t : Tick) :
    (loopStep false flag t).sends = 0 := by
  rcases t with ⟨pos, sr, ss, hr⟩
  cases pos with
  | none => rfl
  | some p =>
    rcases p with ⟨la, lo⟩
    cases hov : is_iss_overhead MY_LAT MY_LONG la lo <;>
      cases hn : is_night sr ss hr <;>
        simp [loopStep, hov, hn]

lemma runLoop_sends_no_emails (ts : List Tick) :
    ∀ flag, (runLoop false flag ts).sends = 0 := by
  induction ts with
  | nil => intro flag; rfl
  | cons t ts ih =>
    intro flag
    rw [runLoop_sends_cons, loopStep_sends_no_emails, ih]

/-- Claim C6: if any of the three configuration variables is absent, the
computed `send_emails` flag is false, the loop performs zero send
invocations on every tick sequence from every starting flag, and the
status messages printed are exactly those of a credentialed run. -/
theorem no_credentials_no_sends
    (sender_email receiver_email email_password : Option String)
    (flag : Bool) (ts : List Tick)
    (habs : sender_email = none ∨ receiver_email = none ∨ email_password = none) :
    send_emails_flag sender_email receiver_email email_password = false ∧
    (runLoop (send_emails_flag sender_email receiver_email email_password) flag ts).sends = 0 ∧
    (runLoop (send_emails_flag sender_email receiver_email email_password) flag ts).logs =
      (runLoop true flag ts).logs := by
  have hf : send_emails_flag sender_email receiver_email email_password = false := by
    rcases habs with h | h | h <;> subst h <;>
      simp [send_emails_flag, truthy]
  rw [hf]
  exact ⟨rfl, runLoop_sends_no_emails ts flag, runLoop_logs_congr ts false flag true flag⟩

/-- Witness for C6 with the sender address absent, over one
overhead-and-night tick. -/
theorem no_credentials_no_sends_witness :
    send_emails_flag none (some "a") (some "b") = false ∧
    (runLoop (send_emails_flag none (some "a") (some "b")) false [tick_night]).sends = 0 ∧
    (runLoop (send_emails_flag none (some "a") (some "b")) false [tick_night]).logs =
      (runLoop true false [tick_night]).logs :=
  no_credentials_no_sends none (some "a") (some "b") false [tick_night] (Or.inl rfl)

/-- Claim C7, counterexample: a payload whose latitude field is a
non-numeric string does not produce the unavailable result — the
`ValueError` raised by `float` escapes `get_iss_location` uncaught. -/
theorem get_iss_location_malformed_cex :
    ¬ (get_iss_location
        (FetchResult.payload (some ⟨Field.nonNumeric "abc", Field.numeric 0⟩)) =
       Except.ok none) ∧
    get_iss_location
        (FetchResult.payload (some ⟨Field.nonNumeric "abc", Field.numeric 0⟩)) =
      Except.error PyExn.valueError :=
  ⟨fun h => by simp [get_iss_location] at h, rfl⟩

/-- Claim C7, amended: every transport failure is caught and yields the
unavailable result, and on an unavailable tick the loop skips the
overhead check, prints only the waiting message and leaves the flag
unchanged; but a response with the `iss_position` key absent, or with a
missing or non-numeric latitude/longitude field, raises an uncaught
exception instead of returning unavailable. -/
theorem get_iss_location_amended :
    (∀ msg, get_iss_location (FetchResult.transportError msg) = Except.ok none) ∧
    (∀ (send_emails flag : Bool) (t : Tick), t.pos = none →
      loopStep send_emails flag t = ⟨flag, 0, [LogEvent.waiting]⟩) ∧
    (get_iss_location (FetchResult.payload none) = Except.error PyExn.keyError) ∧
    (∀ p : IssPosition,
      (field_parses p.latitude = false ∨ field_parses p.longitude = false) →
      ∃ e, get_iss_location (FetchResult.payload (some p)) = Except.error e) := by
  refine ⟨fun msg => rfl, ?_, rfl, ?_⟩
  · intro se flag t hp
    rcases t with ⟨pos, sr, ss, hr⟩
    obtain rfl : pos = none := hp
    rfl
  · intro p hp
    rcases p with ⟨fla, flo⟩
    cases fla <;> cases flo <;> simp [field_parses] at hp <;> exact ⟨_, rfl⟩

/-- Witness for C7: on a fetch-failure tick the loop only waits. -/
theorem get_iss_location_amended_witness :
    loopStep true true tick_unavailable = ⟨true, 0, [LogEvent.waiting]⟩ :=
  get_iss_location_amended.2.1 true true tick_unavailable rfl

/-- Claim C8, counterexample: on a failing send with credentials present
and the flag clear, the first event of the notification branch is the
send attempt and the flag write comes last — the flag is set after, not
before, the send attempt. -/
theorem notify_flag_order_cex :
    (notify_branch true false (SmtpOutcome.error "boom")).2 =
      [NotifyEvent.sendAttempt true, NotifyEvent.errorReported,
       NotifyEvent.flagSet true] ∧
    (notify_branch true false (SmtpOutcome.error "boom")).2.head? =
      some (NotifyEvent.sendAttempt true) ∧
    ¬ (NotifyEvent.flagSet true ∈
        (notify_branch true false (SmtpOutcome.error "boom")).2.takeWhile
          (fun e => !is_send_attempt e)) :=
  ⟨rfl, rfl, by simp [notify_branch, send_iss_notification_email, is_send_attempt]⟩

/-- Claim C8, amended: a mail send error does not affect the notified
flag — the error is caught inside the notifier so the call returns
normally and the flag is then set to true, the same value as after a
successful send; the error is reported, exactly one send attempt is made
(no retry), and the flag write is the last event of the branch. -/
theorem notify_send_failure (msg : String) :
    (notify_branch true false (SmtpOutcome.error msg)).1 = true ∧
    (notify_branch true false (SmtpOutcome.error msg)).1 =
      (notify_branch true false SmtpOutcome.ok).1 ∧
    NotifyEvent.errorReported ∈ (notify_branch true false (SmtpOutcome.error msg)).2 ∧
    ((notify_branch true false (SmtpOutcome.error msg)).2.countP
      (fun e => is_send_attempt e)) = 1 ∧
    (notify_branch true false (SmtpOutcome.error msg)).2.getLast? =
      some (NotifyEvent.flagSet true) :=
  ⟨rfl, rfl, by simp [notify_branch, send_iss_notification_email], rfl, rfl⟩

/-- Claim C10: on a tick where the position fetch returns unavailable the
flag is left unchanged, and a flag set to true persists through any run
of fetch-failure ticks. -/
theorem loop_fetch_failure_frame :
    (∀ (send_emails flag : Bool) (sr ss : Option ℕ) (h : ℕ),
      (loopStep send_emails flag ⟨none, sr, ss, h⟩).flag = flag) ∧
    (∀ (send_emails : Bool) (ts : List Tick), (∀ t ∈ ts, t.pos = none) →
      (runLoop send_emails true ts).flag = true) := by
  constructor
  · intro se flag sr ss h
    rfl
  · intro se ts
    induction ts with
    | nil => intro h; rfl
    | cons t ts ih =>
      intro h
      have ht : t.pos = none := h t (List.mem_cons_self t ts)
      have hstep : (loopStep se true t).flag = true := by
        rcases t with ⟨pos, sr, ss, hr⟩
        obtain rfl : pos = none := ht
        rfl
      show (runLoop se (loopStep se true t).flag ts).flag = true
      rw [hstep]
      exact ih (fun x hx => h x (List.mem_cons_of_mem t hx))

/-- Witness for C10: the flag survives two consecutive fetch-failure
ticks. -/
theorem loop_fetch_failure_frame_witness :
    (runLoop true true [tick_unavailable, tick_unavailable]).flag = true :=
  loop_fetch_failure_frame.2 true [tick_unavailable, tick_unavailable]
    (by intro t ht
        rcases List.mem_cons.mp ht with h | h
        · subst h; rfl
        · rcases List.mem_singleton.mp h with rfl; rfl)

end ISS
